import Mathlib

/-!
Shallow embedding of the pipe-based CDP transport and launcher of
`lib/launcher/launcher_pipe.go`, `launcher_pipe_unix.go` and the Windows
`preparePipeConfig` file, together with proofs checking the specification's
claims about them.

Bytes are modelled as `Nat`; an `os.File` is modelled as a `PFile` record
carrying the byte stream still to be read, the bytes written so far, and the
flags that determine the outcome of the next operation (closed, broken pipe,
terminal read error).  Fallible operations return the updated file together
with an `Option IOErr` / `Except IOErr` result, mirroring Go's `(T, error)`.
-/

/-- Decidable equality for `Except`, used to evaluate outcomes on concrete
inputs. -/
instance {ε α : Type} [DecidableEq ε] [DecidableEq α] :
    DecidableEq (Except ε α)
  | .error a, .error b =>
    if h : a = b then .isTrue (by rw [h])
    else .isFalse (by intro he; cases he; exact h rfl)
  | .error _, .ok _ => .isFalse (by intro he; cases he)
  | .ok _, .error _ => .isFalse (by intro he; cases he)
  | .ok a, .ok b =>
    if h : a = b then .isTrue (by rw [h])
    else .isFalse (by intro he; cases he; exact h rfl)

/-- Errors surfaced by the modelled OS file operations.  `eof` is `io.EOF`,
`errClosed` is `os.ErrClosed` (operation on a closed file), `writeErr` is an
underlying write failure such as a broken pipe, `readErr` an underlying read
failure, and `closeErrA`/`closeErrB` stand for distinct errors a `Close` call
may report. -/
inductive IOErr where
  | eof
  | errClosed
  | writeErr
  | readErr
  | closeErrA
  | closeErrB
deriving DecidableEq, Repr

/-- Model of an `os.File` pipe endpoint.  `stream` holds the bytes a reader
will still receive; `term` is the error a read reports once `stream` is
exhausted (`eof` for a clean end-of-stream, or an I/O error); `written`
accumulates the bytes written; `broken` makes writes fail (peer end closed);
`closed` records whether `Close` has been called; `closeRes` is the error the
first `Close` reports (`none` for success). -/
structure PFile where
  stream : List Nat
  term : IOErr
  written : List Nat
  broken : Bool
  closed : Bool
  closeRes : Option IOErr
deriving DecidableEq, Repr

/-- `os.File.Write`: fails with `ErrClosed` on a closed file, with a write
error on a broken pipe, and otherwise appends the bytes. -/
def PFile.write (f : PFile) (bs : List Nat) : PFile × Option IOErr :=
  if f.closed then (f, some .errClosed)
  else if f.broken then (f, some .writeErr)
  else ({ f with written := f.written ++ bs }, none)

/-- `os.File.Close`: closing an already-closed file reports `ErrClosed`;
otherwise the file becomes closed and the call reports `closeRes`. -/
def PFile.close (f : PFile) : PFile × Option IOErr :=
  if f.closed then (f, some .errClosed)
  else ({ f with closed := true }, f.closeRes)

/-- A freshly opened pipe endpoint that will deliver `stream` and then report
a clean end of stream. -/
def freshFile (stream : List Nat) : PFile :=
  { stream := stream, term := .eof, written := [], broken := false,
    closed := false, closeRes := none }

/-- Split a byte list at its first zero byte: returns the prefix up to and
including the zero, and the remainder.  `none` when no zero byte occurs. -/
def splitAtZero : List Nat → Option (List Nat × List Nat)
  | [] => none
  | b :: rest =>
    if b = 0 then some ([0], rest)
    else
      match splitAtZero rest with
      | some (frame, r) => some (b :: frame, r)
      | none => none

/-- `bufio.Reader.ReadBytes('\x00')` over buffer `buf` and underlying file
`f`.  If the buffer already holds a zero byte the delimited prefix is
returned without touching the file.  Otherwise the reader fills from the
file: a closed file yields `ErrClosed`; else the available stream is pulled
into the buffer and searched; if no delimiter ever arrives the file's
terminal read error is reported.  On error the buffered bytes are consumed
(returned to the caller alongside the error in Go, discarded by `Read`). -/
def readBytesZero (buf : List Nat) (f : PFile) :
    Except IOErr (List Nat) × List Nat × PFile :=
  match splitAtZero buf with
  | some (frame, rest) => (.ok frame, rest, f)
  | none =>
    if f.closed then (.error .errClosed, [], f)
    else
      match splitAtZero (buf ++ f.stream) with
      | some (frame, rest) => (.ok frame, rest, { f with stream := [] })
      | none => (.error f.term, [], { f with stream := [] })

/-- `PipeWebSocket`: the framed pipe transport.  `inFile` is the inbound
endpoint, `out` the outbound endpoint, `readerBuf` the `bufio.Reader`'s
buffered bytes. -/
structure PipeWebSocket where
  inFile : PFile
  out : PFile
  readerBuf : List Nat
deriving DecidableEq, Repr

/-- `NewPipeWebSocket`: wraps the two endpoints, with a fresh read buffer. -/
def NewPipeWebSocket (inF outF : PFile) : PipeWebSocket :=
  { inFile := inF, out := outF, readerBuf := [] }

/-- `PipeWebSocket.Close`: closes both endpoints, returns the inbound close
error if non-nil, otherwise the outbound one. -/
def PipeWebSocket.Close (p : PipeWebSocket) : PipeWebSocket × Option IOErr :=
  let r1 := p.inFile.close
  let r2 := p.out.close
  ({ p with inFile := r1.1, out := r2.1 },
   if r1.2.isSome then r1.2 else r2.2)

/-- `PipeWebSocket.Send`: writes `data ++ [0]` to the outbound endpoint; on a
write error the transport closes itself and the write error is returned. -/
def PipeWebSocket.Send (p : PipeWebSocket) (data : List Nat) :
    PipeWebSocket × Option IOErr :=
  let r := p.out.write (data ++ [0])
  let p1 := { p with out := r.1 }
  match r.2 with
  | some e => ((p1.Close).1, some e)
  | none => (p1, none)

/-- `PipeWebSocket.Read`: reads one zero-delimited frame; on a read error the
transport closes itself and the read error is returned with no data; on
success the trailing zero byte is stripped. -/
def PipeWebSocket.Read (p : PipeWebSocket) :
    PipeWebSocket × Except IOErr (List Nat) :=
  let r := readBytesZero p.readerBuf p.inFile
  let p1 := { p with readerBuf := r.2.1, inFile := r.2.2 }
  match r.1 with
  | .error e => ((p1.Close).1, .error e)
  | .ok data =>
    (p1, .ok (if data.length > 0 then data.dropLast else data))

/-- Sequence of `Send` calls, collecting each call's error result. -/
def sendN (p : PipeWebSocket) : List (List Nat) → PipeWebSocket × List (Option IOErr)
  | [] => (p, [])
  | d :: ds =>
    let s := p.Send d
    let r := sendN s.1 ds
    (r.1, s.2 :: r.2)

/-- Sequence of `Read` calls, collecting each call's result. -/
def readN (p : PipeWebSocket) : Nat → PipeWebSocket × List (Except IOErr (List Nat))
  | 0 => (p, [])
  | n + 1 =>
    let s := p.Read
    let r := readN s.1 n
    (r.1, s.2 :: r.2)

/-- Wire image of a list of payloads: each payload followed by the zero
delimiter byte. -/
def encodeFrames : List (List Nat) → List Nat
  | [] => []
  | d :: ds => d ++ 0 :: encodeFrames ds

/-!
Launcher-side embedding.  `LaunchPipe` (from the repository's pipe launcher,
the variant that invokes the platform binder before formatting arguments),
`NewPipeMode`, and the two platform variants of `preparePipeConfig`.  The
flag-configuration collaborator (`New`, `Set`, `Delete`, `Get`,
`FormatArgs`) and the `hasLaunched` check live outside the given sources and
are modelled from the spec where noted.
-/

/-- Flag name of `flags.RemoteDebuggingPort`. -/
def remoteDebuggingPort : String := "remote-debugging-port"

/-- Flag name of `flags.Leakless`, the external zombie-reaping helper. -/
def leaklessFlag : String := "leakless"

/-- Flag name of `flags.RemoteDebuggingPipe`. -/
def remoteDebuggingPipe : String := "remote-debugging-pipe"

/-- Flag name of `flags.RemoteDebuggingIoPipes` (Windows handle-value flag). -/
def remoteDebuggingIoPipes : String := "remote-debugging-io-pipes"

/-- The launcher's flag table: flag name to list of values. -/
abbrev Flags := List (String × List String)

/-- Launcher configuration state: the flag table, the parser-done marker,
and whether a launch has already occurred on this configuration. -/
structure LauncherState where
  flags : Flags
  parserDone : Bool
  launched : Bool
deriving DecidableEq, Repr

/-- Modelled from the spec: the flag collaborator's `Set` (rod
`Launcher.Set`, not under src) — replaces any existing entry for the flag
with the given values. -/
def LauncherState.Set (l : LauncherState) (k : String) (vs : List String) :
    LauncherState :=
  { l with flags := (k, vs) :: l.flags.filter (fun kv => kv.1 != k) }

/-- Modelled from the spec: the flag collaborator's `Delete` (rod
`Launcher.Delete`, not under src) — removes every entry for the flag. -/
def LauncherState.Delete (l : LauncherState) (k : String) : LauncherState :=
  { l with flags := l.flags.filter (fun kv => kv.1 != k) }

/-- Modelled from the spec: the flag collaborator's lookup (rod
`Launcher.Get`, not under src). -/
def LauncherState.Get (l : LauncherState) (k : String) : Option (List String) :=
  (l.flags.find? (fun kv => kv.1 == k)).map (fun kv => kv.2)

/-- Modelled from the spec: `New()` builds a launcher over the default flag
table, abstracted here as the parameter `f0`; nothing is launched yet. -/
def New (f0 : Flags) : LauncherState :=
  { flags := f0, parserDone := false, launched := false }

/-- Join flag values with commas, as the flag collaborator's formatter does. -/
def joinComma : List String → String
  | [] => ""
  | [v] => v
  | v :: vs => v ++ "," ++ joinComma vs

/-- Modelled from the spec: the flag collaborator's `format() → argument
list` (rod `Launcher.FormatArgs`, not under src) — one `--name` or
`--name=v1,v2` argument per flag-table entry. -/
def FormatArgs (l : LauncherState) : List String :=
  l.flags.map (fun kv =>
    "--" ++ kv.1 ++ (if kv.2.isEmpty then "" else "=" ++ joinComma kv.2))

/-- `NewPipeMode`: deletes the network-port debugging flag and the leakless
flag, sets the use-pipe flag, and marks the parser done. -/
def NewPipeMode (f0 : Flags) : LauncherState :=
  let l := New f0
  let l := l.Delete remoteDebuggingPort
  let l := l.Delete leaklessFlag
  let l := l.Set remoteDebuggingPipe []
  { l with parserDone := true }

/-- A pipe endpoint as the launcher sees it: its OS handle/descriptor value,
whether it has been marked inheritable, and whether it has been closed. -/
structure Handle where
  value : Nat
  inheritable : Bool
  closed : Bool
deriving DecidableEq, Repr

/-- Closing a launcher-held endpoint (the launch paths ignore the error). -/
def Handle.close (h : Handle) : Handle := { h with closed := true }

/-- `setHandleInheritable` (`syscall.SetHandleInformation`): `ok` says
whether the OS call succeeds, `e` is the OS error code on failure; on
success the handle is marked inheritable and is never closed or consumed. -/
def setHandleInheritable (ok : Bool) (e : Nat) (h : Handle) :
    Except Nat Handle :=
  if ok then .ok { h with inheritable := true } else .error e

/-- Errors of the Windows `preparePipeConfig`, each wrapping the OS error
from the failed inheritance-marking call. -/
inductive PrepareError where
  | readHandleInherit (e : Nat)
  | writeHandleInherit (e : Nat)
deriving DecidableEq, Repr

/-- Windows `preparePipeConfig`: marks both handles inheritable, sets the
`remote-debugging-io-pipes` flag to `"<read>,<write>"`, and yields the list
of additional inherited handle values for the process configurator.  The
final two components are the handles as the caller sees them afterwards:
the binder never closes them. -/
def preparePipeConfigWindows (mrOk mwOk : Bool) (mrE mwE : Nat)
    (l : LauncherState) (readPipe writePipe : Handle) :
    Except PrepareError (LauncherState × List Nat) × Handle × Handle :=
  let readHandle := readPipe.value
  let writeHandle := writePipe.value
  match setHandleInheritable mrOk mrE readPipe with
  | .error e => (.error (.readHandleInherit e), readPipe, writePipe)
  | .ok readPipe1 =>
    match setHandleInheritable mwOk mwE writePipe with
    | .error e => (.error (.writeHandleInherit e), readPipe1, writePipe)
    | .ok writePipe1 =>
      (.ok (l.Set remoteDebuggingIoPipes
              [Nat.repr readHandle ++ "," ++ Nat.repr writeHandle],
            [readHandle, writeHandle]),
       readPipe1, writePipe1)

/-- Unix `preparePipeConfig`: no marking, no flag change; the configurator
passes the two endpoints as `ExtraFiles` (descriptors 3 and 4). -/
def preparePipeConfigUnix (l : LauncherState) (readPipe writePipe : Handle) :
    Except PrepareError (LauncherState × List Nat) × Handle × Handle :=
  (.ok (l, [readPipe.value, writePipe.value]), readPipe, writePipe)

/-- Build-time platform selection. -/
inductive Platform where
  | windows
  | unix
deriving DecidableEq, Repr

/-- The platform binder: the variant compiled for the target platform. -/
def preparePipeConfig (plat : Platform) (mrOk mwOk : Bool) (mrE mwE : Nat)
    (l : LauncherState) (readPipe writePipe : Handle) :
    Except PrepareError (LauncherState × List Nat) × Handle × Handle :=
  match plat with
  | .windows => preparePipeConfigWindows mrOk mwOk mrE mwE l readPipe writePipe
  | .unix => preparePipeConfigUnix l readPipe writePipe

/-- Errors surfaced by `LaunchPipe`; the pipe-creation errors wrap the OS
error (`fmt.Errorf("failed to create ... pipe: %w", err)`). -/
inductive LaunchError where
  | alreadyLaunched
  | binError (e : Nat)
  | createWritePipeFailed (e : Nat)
  | createReadPipeFailed (e : Nat)
  | prepareFailed (e : PrepareError)
  | startFailed (e : Nat)
deriving DecidableEq, Repr

/-- Environment of one `LaunchPipe` call: what the external collaborators
(`getBin`, `os.Pipe`, the OS marking calls, `cmd.Start`) return. -/
structure LaunchEnv where
  plat : Platform
  binResult : Except Nat String
  pipe1 : Except Nat (Handle × Handle)
  pipe2 : Except Nat (Handle × Handle)
  markReadOk : Bool
  markWriteOk : Bool
  markReadErr : Nat
  markWriteErr : Nat
  start : Except Nat Nat
deriving DecidableEq, Repr

/-- Observable outcome of a `LaunchPipe` call: the updated launcher, the
result (pid or error), the final state of each endpoint that was created
(`none` if never created), the argument list passed to the spawned process
(`none` if no spawn was attempted), and the number of spawn attempts and
`os.Pipe` calls made. -/
structure LaunchOutcome where
  launcher : LauncherState
  result : Except LaunchError Nat
  chromeReadPipe : Option Handle
  ourWritePipe : Option Handle
  ourReadPipe : Option Handle
  chromeWritePipe : Option Handle
  spawnArgs : Option (List String)
  spawnCount : Nat
  pipeCreateCount : Nat
deriving DecidableEq, Repr

/-- `Launcher.LaunchPipe`: rejects if already launched (modelled from the
spec: `hasLaunched`, not under src, is the irreversible launched marker set
by the deferred context-cancel on every non-rejected call); creates the two
pipe pairs with cleanup of pair 1 if pair 2 fails; runs the platform binder
with cleanup of all four endpoints on failure; formats the argument list
after the binder ran; spawns, closing all four endpoints on spawn failure;
on success closes the two child-side endpoints and keeps the parent-side
pair for the transport. -/
def LaunchPipe (env : LaunchEnv) (l : LauncherState) : LaunchOutcome :=
  if l.launched then
    { launcher := l, result := .error .alreadyLaunched,
      chromeReadPipe := none, ourWritePipe := none,
      ourReadPipe := none, chromeWritePipe := none,
      spawnArgs := none, spawnCount := 0, pipeCreateCount := 0 }
  else
    let l1 : LauncherState := { l with launched := true }
    match env.binResult with
    | .error e =>
      { launcher := l1, result := .error (.binError e),
        chromeReadPipe := none, ourWritePipe := none,
        ourReadPipe := none, chromeWritePipe := none,
        spawnArgs := none, spawnCount := 0, pipeCreateCount := 0 }
    | .ok _bin =>
      match env.pipe1 with
      | .error e =>
        { launcher := l1, result := .error (.createWritePipeFailed e),
          chromeReadPipe := none, ourWritePipe := none,
          ourReadPipe := none, chromeWritePipe := none,
          spawnArgs := none, spawnCount := 0, pipeCreateCount := 1 }
      | .ok (chromeReadPipe0, ourWritePipe0) =>
        match env.pipe2 with
        | .error e =>
          { launcher := l1, result := .error (.createReadPipeFailed e),
            chromeReadPipe := some chromeReadPipe0.close,
            ourWritePipe := some ourWritePipe0.close,
            ourReadPipe := none, chromeWritePipe := none,
            spawnArgs := none, spawnCount := 0, pipeCreateCount := 2 }
        | .ok (ourReadPipe0, chromeWritePipe0) =>
          match preparePipeConfig env.plat env.markReadOk env.markWriteOk
              env.markReadErr env.markWriteErr l1
              chromeReadPipe0 chromeWritePipe0 with
          | (.error e, rp1, wp1) =>
            { launcher := l1, result := .error (.prepareFailed e),
              chromeReadPipe := some rp1.close,
              ourWritePipe := some ourWritePipe0.close,
              ourReadPipe := some ourReadPipe0.close,
              chromeWritePipe := some wp1.close,
              spawnArgs := none, spawnCount := 0, pipeCreateCount := 2 }
          | (.ok (l2, _cfgHandles), rp1, wp1) =>
            let args := FormatArgs l2
            match env.start with
            | .error e =>
              { launcher := l2, result := .error (.startFailed e),
                chromeReadPipe := some rp1.close,
                ourWritePipe := some ourWritePipe0.close,
                ourReadPipe := some ourReadPipe0.close,
                chromeWritePipe := some wp1.close,
                spawnArgs := some args, spawnCount := 1,
                pipeCreateCount := 2 }
            | .ok pid =>
              { launcher := l2, result := .ok pid,
                chromeReadPipe := some rp1.close,
                ourWritePipe := some ourWritePipe0,
                ourReadPipe := some ourReadPipe0,
                chromeWritePipe := some wp1.close,
                spawnArgs := some args, spawnCount := 1,
                pipeCreateCount := 2 }

/-!
Helper lemmas about the framing primitives and the transport.
-/

theorem splitAtZero_frame (d rest : List Nat) (h : ¬ 0 ∈ d) :
    splitAtZero (d ++ 0 :: rest) = some (d ++ [0], rest) := by
  induction d with
  | nil => simp [splitAtZero]
  | cons b d ih =>
    have hb : b ≠ 0 := by
      intro hb
      exact h (by simp [hb])
    have hd : ¬ 0 ∈ d := fun hm => h (List.mem_cons_of_mem _ hm)
    simp [splitAtZero, hb, ih hd]

theorem splitAtZero_append (buf s f r : List Nat)
    (h : splitAtZero buf = some (f, r)) :
    splitAtZero (buf ++ s) = some (f, r ++ s) := by
  induction buf generalizing f r with
  | nil => simp [splitAtZero] at h
  | cons b buf ih =>
    by_cases hb : b = 0
    · subst hb
      simp only [splitAtZero, if_pos rfl, Option.some.injEq, Prod.mk.injEq] at h
      obtain ⟨rfl, rfl⟩ := h
      simp [splitAtZero]
    · simp only [List.cons_append, splitAtZero, if_neg hb] at h ⊢
      cases hsp : splitAtZero buf with
      | none => rw [hsp] at h; simp at h
      | some pr =>
        obtain ⟨f1, r1⟩ := pr
        rw [hsp] at h
        simp only [Option.some.injEq, Prod.mk.injEq] at h
        obtain ⟨rfl, rfl⟩ := h
        have hr := ih f1 r1 hsp
        simp only [List.append_eq] at hr ⊢
        rw [hr]

theorem PFile.close_closed (f : PFile) : ((f.close).1).closed = true := by
  by_cases h : f.closed <;> simp [PFile.close, h]

theorem Close_state (p : PipeWebSocket) :
    ((p.Close).1).inFile.closed = true ∧ ((p.Close).1).out.closed = true ∧
    ((p.Close).1).readerBuf = p.readerBuf := by
  exact ⟨PFile.close_closed p.inFile, PFile.close_closed p.out, rfl⟩

theorem Send_ok (p : PipeWebSocket) (d : List Nat)
    (h1 : p.out.closed = false) (h2 : p.out.broken = false) :
    p.Send d =
      ({ p with out := { p.out with written := p.out.written ++ (d ++ [0]) } },
       none) := by
  simp [PipeWebSocket.Send, PFile.write, h1, h2]

theorem sendN_cons (p : PipeWebSocket) (d : List Nat) (ds : List (List Nat)) :
    sendN p (d :: ds) =
      ((sendN (p.Send d).1 ds).1, (p.Send d).2 :: (sendN (p.Send d).1 ds).2) :=
  rfl

theorem readN_succ (p : PipeWebSocket) (n : Nat) :
    readN p (n + 1) =
      ((readN (p.Read).1 n).1, (p.Read).2 :: (readN (p.Read).1 n).2) :=
  rfl

theorem sendN_ok (ps : List (List Nat)) (p : PipeWebSocket)
    (h1 : p.out.closed = false) (h2 : p.out.broken = false) :
    (sendN p ps).2 = ps.map (fun _ => (none : Option IOErr)) ∧
    (sendN p ps).1.out.written = p.out.written ++ encodeFrames ps := by
  induction ps generalizing p with
  | nil => simp [sendN, encodeFrames]
  | cons d tl ih =>
    rw [sendN_cons, Send_ok p d h1 h2]
    have := ih ({ p with out := { p.out with written := p.out.written ++ (d ++ [0]) } }) h1 h2
    simp only [List.map_cons, encodeFrames]
    refine ⟨by simp [this.1], ?_⟩
    rw [this.2]
    simp [List.append_assoc]

theorem read_frame_step (p : PipeWebSocket) (d rest : List Nat)
    (hd : ¬ 0 ∈ d) (hcl : p.inFile.closed = false)
    (hcontent : p.readerBuf ++ p.inFile.stream = d ++ 0 :: rest) :
    (p.Read).2 = .ok d ∧
    ((p.Read).1).readerBuf ++ ((p.Read).1).inFile.stream = rest ∧
    ((p.Read).1).inFile.closed = false ∧
    ((p.Read).1).out = p.out := by
  have hframe : splitAtZero (p.readerBuf ++ p.inFile.stream)
      = some (d ++ [0], rest) := by
    rw [hcontent]; exact splitAtZero_frame d rest hd
  cases hsp : splitAtZero p.readerBuf with
  | some pr =>
    obtain ⟨f, r⟩ := pr
    have h2 := splitAtZero_append p.readerBuf p.inFile.stream f r hsp
    rw [hframe] at h2
    simp only [Option.some.injEq, Prod.mk.injEq] at h2
    obtain ⟨hf, hr⟩ := h2
    subst hf
    simp [PipeWebSocket.Read, readBytesZero, hsp, hr, hcl]
  | none =>
    simp [PipeWebSocket.Read, readBytesZero, hsp, hcl, hframe]

theorem readN_frames (ps : List (List Nat)) (p : PipeWebSocket)
    (h : ∀ d ∈ ps, ¬ 0 ∈ d) (hcl : p.inFile.closed = false)
    (hcontent : p.readerBuf ++ p.inFile.stream = encodeFrames ps) :
    (readN p ps.length).2 = ps.map Except.ok := by
  induction ps generalizing p with
  | nil => simp [readN]
  | cons d tl ih =>
    have hd : ¬ 0 ∈ d := h d (List.mem_cons_self d tl)
    have htl : ∀ x ∈ tl, ¬ 0 ∈ x := fun x hx => h x (List.mem_cons_of_mem d hx)
    have hstep := read_frame_step p d (encodeFrames tl) hd hcl
      (by rw [hcontent]; rfl)
    rw [List.length_cons, readN_succ, hstep.1,
      ih (p.Read).1 htl hstep.2.2.1 hstep.2.1]
    simp

theorem read_error_state (p : PipeWebSocket) (e : IOErr)
    (h : (p.Read).2 = .error e) :
    ((p.Read).1).inFile.closed = true ∧ ((p.Read).1).out.closed = true ∧
    ((p.Read).1).readerBuf = [] ∧ (e = .errClosed ∨ e = p.inFile.term) := by
  cases hsp : splitAtZero p.readerBuf with
  | some pr =>
    exfalso
    obtain ⟨f, r⟩ := pr
    simp [PipeWebSocket.Read, readBytesZero, hsp] at h
  | none =>
    cases hcl : p.inFile.closed with
    | true =>
      simp only [PipeWebSocket.Read, readBytesZero, hsp, hcl, if_pos rfl] at h ⊢
      refine ⟨PFile.close_closed _, PFile.close_closed _, rfl, ?_⟩
      simp at h
      exact Or.inl h.symm
    | false =>
      cases hsp2 : splitAtZero (p.readerBuf ++ p.inFile.stream) with
      | some pr =>
        exfalso
        obtain ⟨f, r⟩ := pr
        simp [PipeWebSocket.Read, readBytesZero, hsp, hcl, hsp2] at h
      | none =>
        simp only [PipeWebSocket.Read, readBytesZero, hsp, hcl, hsp2,
          Bool.false_eq_true, if_neg] at h ⊢
        refine ⟨PFile.close_closed _, PFile.close_closed _, rfl, ?_⟩
        simp at h
        exact Or.inr h.symm

theorem send_error_state (p : PipeWebSocket) (d : List Nat) (e : IOErr)
    (h : (p.Send d).2 = some e) :
    ((p.Send d).1).inFile.closed = true ∧ ((p.Send d).1).out.closed = true ∧
    ((p.Send d).1).readerBuf = p.readerBuf ∧
    (e = .errClosed ∨ e = .writeErr) := by
  cases hcl : p.out.closed with
  | true =>
    simp only [PipeWebSocket.Send, PFile.write, hcl, if_pos rfl] at h ⊢
    refine ⟨PFile.close_closed _, PFile.close_closed _, rfl, ?_⟩
    simp at h
    exact Or.inl h.symm
  | false =>
    cases hbr : p.out.broken with
    | true =>
      simp only [PipeWebSocket.Send, PFile.write, hcl, hbr,
        Bool.false_eq_true, if_neg, if_pos rfl] at h ⊢
      refine ⟨PFile.close_closed _, PFile.close_closed _, rfl, ?_⟩
      simp at h
      exact Or.inr h.symm
    | false =>
      exfalso
      simp [PipeWebSocket.Send, PFile.write, hcl, hbr] at h

/-!
Claims about the framed pipe transport.
-/

/-- C1: for payloads that contain no zero byte, sending them over one end of
the transport puts exactly their delimited frames on the wire, every `Send`
succeeds, and reading N times on the peer whose inbound stream carries those
bytes returns exactly the original payloads, delimiters stripped, in the
order they were sent. -/
theorem c1_send_read_roundtrip (ps : List (List Nat))
    (h : ∀ d ∈ ps, ¬ 0 ∈ d) :
    (sendN (NewPipeWebSocket (freshFile []) (freshFile [])) ps).2
      = ps.map (fun _ => (none : Option IOErr)) ∧
    (sendN (NewPipeWebSocket (freshFile []) (freshFile [])) ps).1.out.written
      = encodeFrames ps ∧
    (readN (NewPipeWebSocket (freshFile (encodeFrames ps)) (freshFile []))
        ps.length).2
      = ps.map Except.ok := by
  have hs := sendN_ok ps (NewPipeWebSocket (freshFile []) (freshFile [])) rfl rfl
  have hr := readN_frames ps
    (NewPipeWebSocket (freshFile (encodeFrames ps)) (freshFile [])) h rfl rfl
  refine ⟨hs.1, ?_, hr⟩
  have := hs.2
  simpa [NewPipeWebSocket, freshFile] using this

/-- C1 witness: the round-trip law evaluated at the two payloads
`[1, 2]` and `[3]`. -/
theorem c1_witness :
    (sendN (NewPipeWebSocket (freshFile []) (freshFile [])) [[1, 2], [3]]).2
      = [[1, 2], [3]].map (fun _ => (none : Option IOErr)) ∧
    (sendN (NewPipeWebSocket (freshFile []) (freshFile []))
        [[1, 2], [3]]).1.out.written
      = encodeFrames [[1, 2], [3]] ∧
    (readN (NewPipeWebSocket (freshFile (encodeFrames [[1, 2], [3]]))
        (freshFile [])) (([[1, 2], [3]] : List (List Nat))).length).2
      = [[1, 2], [3]].map Except.ok :=
  c1_send_read_roundtrip [[1, 2], [3]] (by decide)

/-- The transport state of the C2 counterexample before any call: the peer
has already written the two frames `[1]` and `[2]` to the inbound pipe, and
the outbound pipe is broken (its read end is gone), so the next `Send` will
fail. -/
def stickyStart : PipeWebSocket :=
  { inFile := freshFile [1, 0, 2, 0],
    out := { freshFile [] with broken := true },
    readerBuf := [] }

/-- C2 counterexample: from `stickyStart`, a first `Read` succeeds (and
buffers the second frame), the following `Send` fails with a write error —
which self-closes the transport — and yet the next `Read` succeeds,
returning the buffered frame `[2]`.  So an error on one call does not make
every subsequent `Read` fail, refuting the claim. -/
theorem c2_counterexample :
    (stickyStart.Read).2 = .ok [1] ∧
    (((stickyStart.Read).1).Send [5]).2 = some .writeErr ∧
    ((((stickyStart.Read).1).Send [5]).1).inFile.closed = true ∧
    ((((stickyStart.Read).1).Send [5]).1).out.closed = true ∧
    (((((stickyStart.Read).1).Send [5]).1).Read).2 = .ok [2] := by
  refine ⟨rfl, rfl, rfl, rfl, rfl⟩

/-- C2 (amended): after a `Send` or `Read` call has failed, every subsequent
`Send` on that transport fails with the closed-file error, and every
subsequent `Read` whose reader buffer holds no complete delimited frame
fails with the closed-file error; only a complete frame already buffered
before the failure can still be returned. -/
theorem c2_amended_sticky (p q : PipeWebSocket) (d0 : List Nat) (e : IOErr)
    (h : p.Send d0 = (q, some e) ∨ p.Read = (q, Except.error e)) :
    (∀ d, (q.Send d).2 = some .errClosed) ∧
    (splitAtZero q.readerBuf = none → (q.Read).2 = .error .errClosed) := by
  have hq : q.inFile.closed = true ∧ q.out.closed = true := by
    rcases h with h | h
    · have h2 : (p.Send d0).2 = some e := by rw [h]
      have h1 : (p.Send d0).1 = q := by rw [h]
      have := send_error_state p d0 e h2
      rw [h1] at this
      exact ⟨this.1, this.2.1⟩
    · have h2 : (p.Read).2 = Except.error e := by rw [h]
      have h1 : (p.Read).1 = q := by rw [h]
      have := read_error_state p e h2
      rw [h1] at this
      exact ⟨this.1, this.2.1⟩
  constructor
  · intro d
    simp [PipeWebSocket.Send, PFile.write, hq.2]
  · intro hsp
    simp [PipeWebSocket.Read, readBytesZero, hsp, hq.1]

/-- The transport state after the failing `Send` of the amended-C2 witness. -/
def stickyClosed : PipeWebSocket :=
  (PipeWebSocket.Send
    { inFile := freshFile [],
      out := { freshFile [] with broken := true },
      readerBuf := [] } [7]).1

/-- C2 (amended) witness: after a concrete failed `Send`, a concrete
subsequent `Send` and a concrete subsequent `Read` (empty reader buffer)
both fail with the closed-file error. -/
theorem c2_amended_witness :
    (stickyClosed.Send [9]).2 = some .errClosed ∧
    (stickyClosed.Read).2 = .error .errClosed := by
  have h := c2_amended_sticky
    { inFile := freshFile [],
      out := { freshFile [] with broken := true },
      readerBuf := [] }
    stickyClosed [7] .writeErr (Or.inl rfl)
  exact ⟨h.1 [9], h.2 rfl⟩

/-- C3: whenever `Read` returns an error — the underlying read failed or the
stream ended before a delimiter — the transport has closed both of its
endpoints before returning, the reader buffer's undelimited tail is
discarded, and the error returned is the originating one: the closed-file
error or the inbound endpoint's own read error, never a close error and
never accompanied by data. -/
theorem c3_read_error_closes (p : PipeWebSocket) (e : IOErr)
    (h : (p.Read).2 = .error e) :
    ((p.Read).1).inFile.closed = true ∧ ((p.Read).1).out.closed = true ∧
    ((p.Read).1).readerBuf = [] ∧ (e = .errClosed ∨ e = p.inFile.term) :=
  read_error_state p e h

/-- C3 witness: reading from a transport whose inbound stream ends after the
undelimited byte `1` errors with `eof`, closes both endpoints and discards
the tail. -/
theorem c3_witness :
    (((NewPipeWebSocket (freshFile [1]) (freshFile [])).Read).1).inFile.closed
      = true ∧
    (((NewPipeWebSocket (freshFile [1]) (freshFile [])).Read).1).out.closed
      = true ∧
    (((NewPipeWebSocket (freshFile [1]) (freshFile [])).Read).1).readerBuf
      = [] ∧
    (IOErr.eof = .errClosed ∨
      IOErr.eof = (NewPipeWebSocket (freshFile [1]) (freshFile [])).inFile.term) :=
  c3_read_error_closes (NewPipeWebSocket (freshFile [1]) (freshFile [])) .eof rfl

/-- C4: `Close` always ends with both endpoints closed — the outbound
endpoint is closed even when closing the inbound one fails — and it returns
the inbound endpoint's close error if there is one, otherwise the outbound
endpoint's close error, otherwise success. -/
theorem c4_close_both (p : PipeWebSocket) :
    ((p.Close).1).inFile.closed = true ∧ ((p.Close).1).out.closed = true ∧
    (p.Close).2 = (if ((p.inFile.close).2).isSome then (p.inFile.close).2
                   else (p.out.close).2) :=
  ⟨(Close_state p).1, (Close_state p).2.1, rfl⟩

/-- C10: when the next byte on the inbound stream is the delimiter itself,
`Read` returns the empty payload with no error, and the transport stays
open — the empty frame is a valid message. -/
theorem c10_empty_frame (rest : List Nat) :
    ((NewPipeWebSocket (freshFile (0 :: rest)) (freshFile [])).Read).2
      = .ok [] ∧
    ((NewPipeWebSocket (freshFile (0 :: rest)) (freshFile [])).Read).1.inFile.closed
      = false := by
  simp [NewPipeWebSocket, PipeWebSocket.Read, readBytesZero, splitAtZero,
    freshFile]

/-!
Helper lemmas about the flag table and the launcher.
-/

theorem find?_filter_ne (fs : Flags) (k target : String) (h : target ≠ k) :
    (fs.filter (fun kv => kv.1 != k)).find? (fun kv => kv.1 == target)
      = fs.find? (fun kv => kv.1 == target) := by
  induction fs with
  | nil => rfl
  | cons kv fs ih =>
    by_cases hk : kv.1 = k
    · have ht : ¬ kv.1 = target := by rw [hk]; exact fun hh => h hh.symm
      have hkt : ¬ k = target := fun hh => h hh.symm
      simp [List.filter_cons, List.find?_cons, hk, ht, hkt, ih]
    · by_cases htg : kv.1 = target
      · simp [List.filter_cons, List.find?_cons, hk, htg, h]
      · simp [List.filter_cons, List.find?_cons, hk, htg, h, ih]

theorem find?_filter_self (fs : Flags) (k : String) :
    (fs.filter (fun kv => kv.1 != k)).find? (fun kv => kv.1 == k) = none := by
  induction fs with
  | nil => rfl
  | cons kv fs ih =>
    by_cases hk : kv.1 = k
    · simp [List.filter_cons, hk, ih]
    · simp [List.filter_cons, List.find?_cons, hk, ih]

theorem Get_Set_self (l : LauncherState) (k : String) (vs : List String) :
    (l.Set k vs).Get k = some vs := by
  simp [LauncherState.Set, LauncherState.Get, List.find?_cons]

theorem Get_Set_ne (l : LauncherState) (k : String) (vs : List String)
    (k' : String) (h : k' ≠ k) :
    (l.Set k vs).Get k' = l.Get k' := by
  have hk : ¬ k = k' := fun hh => h hh.symm
  simp [LauncherState.Set, LauncherState.Get, List.find?_cons, hk,
    find?_filter_ne l.flags k k' h]

theorem Get_Delete_self (l : LauncherState) (k : String) :
    (l.Delete k).Get k = none := by
  simp [LauncherState.Delete, LauncherState.Get, find?_filter_self l.flags k]

theorem Get_Delete_ne (l : LauncherState) (k k' : String) (h : k' ≠ k) :
    (l.Delete k).Get k' = l.Get k' := by
  simp [LauncherState.Delete, LauncherState.Get,
    find?_filter_ne l.flags k k' h]

theorem Get_withParserDone (l : LauncherState) (b : Bool) (k : String) :
    (LauncherState.Get { l with parserDone := b } k) = l.Get k := rfl

theorem Get_withLaunched (l : LauncherState) (b : Bool) (k : String) :
    (LauncherState.Get { l with launched := b } k) = l.Get k := rfl

theorem Set_launched (l : LauncherState) (k : String) (vs : List String) :
    (l.Set k vs).launched = l.launched := rfl

theorem prepare_ok_launched (plat : Platform) (mrOk mwOk : Bool)
    (mrE mwE : Nat) (l l2 : LauncherState) (rp wp : Handle) (cfg : List Nat)
    (h : (preparePipeConfig plat mrOk mwOk mrE mwE l rp wp).1
      = .ok (l2, cfg)) :
    l2.launched = l.launched := by
  cases plat with
  | unix =>
    simp [preparePipeConfig, preparePipeConfigUnix] at h
    rw [← h.1]
  | windows =>
    cases mrOk with
    | false =>
      simp [preparePipeConfig, preparePipeConfigWindows,
        setHandleInheritable] at h
    | true =>
      cases mwOk with
      | false =>
        simp [preparePipeConfig, preparePipeConfigWindows,
          setHandleInheritable] at h
      | true =>
        simp [preparePipeConfig, preparePipeConfigWindows,
          setHandleInheritable] at h
        rw [← h.1, Set_launched]

theorem LaunchPipe_Get (env : LaunchEnv) (l : LauncherState) (k : String)
    (h4 : k ≠ remoteDebuggingIoPipes) :
    ((LaunchPipe env l).launcher).Get k = l.Get k := by
  cases hl : l.launched with
  | true => simp [LaunchPipe, hl]
  | false =>
    cases hb : env.binResult with
    | error e => simp [LaunchPipe, hl, hb, Get_withLaunched]
    | ok bin =>
      cases hp1 : env.pipe1 with
      | error e => simp [LaunchPipe, hl, hb, hp1, Get_withLaunched]
      | ok pr1 =>
        obtain ⟨crp, owp⟩ := pr1
        cases hp2 : env.pipe2 with
        | error e => simp [LaunchPipe, hl, hb, hp1, hp2, Get_withLaunched]
        | ok pr2 =>
          obtain ⟨orp, cwp⟩ := pr2
          cases hplat : env.plat with
          | unix =>
            cases hst : env.start with
            | error e =>
              simp [LaunchPipe, hl, hb, hp1, hp2, hplat, hst,
                preparePipeConfig, preparePipeConfigUnix, Get_withLaunched]
            | ok pid =>
              simp [LaunchPipe, hl, hb, hp1, hp2, hplat, hst,
                preparePipeConfig, preparePipeConfigUnix, Get_withLaunched]
          | windows =>
            cases hmr : env.markReadOk with
            | false =>
              simp [LaunchPipe, hl, hb, hp1, hp2, hplat, hmr,
                preparePipeConfig, preparePipeConfigWindows,
                setHandleInheritable, Get_withLaunched]
            | true =>
              cases hmw : env.markWriteOk with
              | false =>
                simp [LaunchPipe, hl, hb, hp1, hp2, hplat, hmr, hmw,
                  preparePipeConfig, preparePipeConfigWindows,
                  setHandleInheritable, Get_withLaunched]
              | true =>
                have hset := fun (lx : LauncherState) (vs : List String) =>
                  Get_Set_ne lx remoteDebuggingIoPipes vs k h4
                cases hst : env.start with
                | error e =>
                  simp [LaunchPipe, hl, hb, hp1, hp2, hplat, hmr, hmw,
                    hst, preparePipeConfig, preparePipeConfigWindows,
                    setHandleInheritable, hset, Get_withLaunched]
                | ok pid =>
                  simp [LaunchPipe, hl, hb, hp1, hp2, hplat, hmr, hmw,
                    hst, preparePipeConfig, preparePipeConfigWindows,
                    setHandleInheritable, hset, Get_withLaunched]

theorem LaunchPipe_first (env : LaunchEnv) (l : LauncherState)
    (h : l.launched = false) :
    ((LaunchPipe env l).launcher).launched = true ∧
    (LaunchPipe env l).result ≠ .error .alreadyLaunched := by
  cases hb : env.binResult with
  | error e => simp [LaunchPipe, h, hb]
  | ok bin =>
    cases hp1 : env.pipe1 with
    | error e => simp [LaunchPipe, h, hb, hp1]
    | ok pr1 =>
      obtain ⟨crp, owp⟩ := pr1
      cases hp2 : env.pipe2 with
      | error e => simp [LaunchPipe, h, hb, hp1, hp2]
      | ok pr2 =>
        obtain ⟨orp, cwp⟩ := pr2
        cases hplat : env.plat with
        | unix =>
          cases hst : env.start with
          | error e =>
            simp [LaunchPipe, h, hb, hp1, hp2, hplat, hst,
              preparePipeConfig, preparePipeConfigUnix]
          | ok pid =>
            simp [LaunchPipe, h, hb, hp1, hp2, hplat, hst,
              preparePipeConfig, preparePipeConfigUnix]
        | windows =>
          cases hmr : env.markReadOk with
          | false =>
            simp [LaunchPipe, h, hb, hp1, hp2, hplat, hmr,
              preparePipeConfig, preparePipeConfigWindows,
              setHandleInheritable]
          | true =>
            cases hmw : env.markWriteOk with
            | false =>
              simp [LaunchPipe, h, hb, hp1, hp2, hplat, hmr, hmw,
                preparePipeConfig, preparePipeConfigWindows,
                setHandleInheritable]
            | true =>
              cases hst : env.start with
              | error e =>
                simp [LaunchPipe, h, hb, hp1, hp2, hplat, hmr, hmw, hst,
                  preparePipeConfig, preparePipeConfigWindows,
                  setHandleInheritable, Set_launched]
              | ok pid =>
                simp [LaunchPipe, h, hb, hp1, hp2, hplat, hmr, hmw, hst,
                  preparePipeConfig, preparePipeConfigWindows,
                  setHandleInheritable, Set_launched]

/-!
Claims about the pipe launcher.
-/

/-- C5: in every launch that reaches the spawn step, the argument list
passed to the spawned process is the one formatted from the configuration as
it stands after the platform pipe binder ran; on explicit-handle platforms
the flag carrying the two handle values, injected by the binder, is
therefore present in the spawned child's argument list. -/
theorem c5_args_after_binder (env : LaunchEnv) (l l2 : LauncherState)
    (crp owp orp cwp : Handle) (cfg : List Nat) (b : String)
    (h : l.launched = false) (hb : env.binResult = .ok b)
    (hp1 : env.pipe1 = .ok (crp, owp)) (hp2 : env.pipe2 = .ok (orp, cwp))
    (hpc : (preparePipeConfig env.plat env.markReadOk env.markWriteOk
        env.markReadErr env.markWriteErr { l with launched := true }
        crp cwp).1 = .ok (l2, cfg)) :
    (LaunchPipe env l).spawnArgs = some (FormatArgs l2) ∧
    (env.plat = Platform.windows →
      ("--" ++ remoteDebuggingIoPipes ++
        ("=" ++ (Nat.repr crp.value ++ "," ++ Nat.repr cwp.value)))
        ∈ FormatArgs l2) := by
  obtain ⟨rp1, wp1, hfull⟩ :
      ∃ rp1 wp1, preparePipeConfig env.plat env.markReadOk env.markWriteOk
        env.markReadErr env.markWriteErr { l with launched := true } crp cwp
        = (Except.ok (l2, cfg), rp1, wp1) := ⟨_, _, by rw [← hpc]⟩
  constructor
  · cases hst : env.start with
    | error e2 => simp [LaunchPipe, h, hb, hp1, hp2, hfull, hst]
    | ok pid => simp [LaunchPipe, h, hb, hp1, hp2, hfull, hst]
  · intro hw
    rw [hw] at hpc
    cases hmr : env.markReadOk with
    | false =>
      rw [hmr] at hpc
      simp [preparePipeConfig, preparePipeConfigWindows,
        setHandleInheritable] at hpc
    | true =>
      cases hmw : env.markWriteOk with
      | false =>
        rw [hmr, hmw] at hpc
        simp [preparePipeConfig, preparePipeConfigWindows,
          setHandleInheritable] at hpc
      | true =>
        rw [hmr, hmw] at hpc
        simp [preparePipeConfig, preparePipeConfigWindows,
          setHandleInheritable] at hpc
        obtain ⟨hl2, _hcfg⟩ := hpc
        rw [← hl2]
        simp [FormatArgs, LauncherState.Set, joinComma]

/-- A concrete launch environment in which every external step succeeds,
on the explicit-handle platform. -/
def launchEnvW : LaunchEnv :=
  { plat := .windows, binResult := .ok "browser",
    pipe1 := .ok (⟨3, false, false⟩, ⟨4, false, false⟩),
    pipe2 := .ok (⟨5, false, false⟩, ⟨6, false, false⟩),
    markReadOk := true, markWriteOk := true,
    markReadErr := 11, markWriteErr := 12, start := .ok 111 }

/-- The launcher configuration after the Windows binder ran in
`launchEnvW`, starting from `New []`. -/
def launchedL2W : LauncherState :=
  LauncherState.Set { New [] with launched := true } remoteDebuggingIoPipes
    [Nat.repr 3 ++ "," ++ Nat.repr 6]

/-- C5 witness: in the concrete Windows environment `launchEnvW`, the
spawned argument list is the one formatted after the binder ran and
contains the handle-value flag. -/
theorem c5_witness :
    (LaunchPipe launchEnvW (New [])).spawnArgs
      = some (FormatArgs launchedL2W) ∧
    (launchEnvW.plat = Platform.windows →
      ("--" ++ remoteDebuggingIoPipes ++
        ("=" ++ (Nat.repr 3 ++ "," ++ Nat.repr 6)))
        ∈ FormatArgs launchedL2W) :=
  c5_args_after_binder launchEnvW (New []) launchedL2W
    ⟨3, false, false⟩ ⟨4, false, false⟩ ⟨5, false, false⟩ ⟨6, false, false⟩
    [3, 6] "browser" rfl rfl rfl rfl rfl

/-- C6: when the second pipe pair's creation fails after the first pair was
created, `LaunchPipe` closes both endpoints of the first pair before
returning, performs no spawn, and returns the error that wraps the second
pair's creation error specifically. -/
theorem c6_pair2_failure_cleanup (env : LaunchEnv) (l : LauncherState)
    (crp owp : Handle) (e : Nat) (b : String)
    (h : l.launched = false) (hb : env.binResult = .ok b)
    (hp1 : env.pipe1 = .ok (crp, owp)) (hp2 : env.pipe2 = .error e) :
    (LaunchPipe env l).result = .error (.createReadPipeFailed e) ∧
    (LaunchPipe env l).chromeReadPipe = some { crp with closed := true } ∧
    (LaunchPipe env l).ourWritePipe = some { owp with closed := true } ∧
    (LaunchPipe env l).spawnCount = 0 := by
  simp [LaunchPipe, h, hb, hp1, hp2, Handle.close]

/-- C6 witness: the cleanup behaviour evaluated in a concrete environment
whose second `os.Pipe` call fails with error code 42. -/
theorem c6_witness :
    (LaunchPipe { launchEnvW with pipe2 := .error 42 } (New [])).result
      = .error (.createReadPipeFailed 42) ∧
    (LaunchPipe { launchEnvW with pipe2 := .error 42 } (New [])).chromeReadPipe
      = some { value := 3, inheritable := false, closed := true } ∧
    (LaunchPipe { launchEnvW with pipe2 := .error 42 } (New [])).ourWritePipe
      = some { value := 4, inheritable := false, closed := true } ∧
    (LaunchPipe { launchEnvW with pipe2 := .error 42 } (New [])).spawnCount
      = 0 :=
  c6_pair2_failure_cleanup { launchEnvW with pipe2 := .error 42 } (New [])
    ⟨3, false, false⟩ ⟨4, false, false⟩ 42 "browser" rfl rfl rfl rfl

/-- C7: on an unlaunched configuration the first `LaunchPipe` call proceeds
past the already-launched check and irreversibly marks the configuration
launched; any second call, whatever its environment, returns the
already-launched error, creates no pipe, performs no spawn, and leaves the
configuration unchanged. -/
theorem c7_at_most_once (env env2 : LaunchEnv) (l : LauncherState)
    (h : l.launched = false) :
    (LaunchPipe env l).result ≠ .error .alreadyLaunched ∧
    ((LaunchPipe env l).launcher).launched = true ∧
    (LaunchPipe env2 ((LaunchPipe env l).launcher)).result
      = .error .alreadyLaunched ∧
    (LaunchPipe env2 ((LaunchPipe env l).launcher)).pipeCreateCount = 0 ∧
    (LaunchPipe env2 ((LaunchPipe env l).launcher)).spawnCount = 0 ∧
    (LaunchPipe env2 ((LaunchPipe env l).launcher)).launcher
      = (LaunchPipe env l).launcher := by
  obtain ⟨h1, h2⟩ := LaunchPipe_first env l h
  have key : ∀ lx : LauncherState, lx.launched = true →
      (LaunchPipe env2 lx).result = .error .alreadyLaunched ∧
      (LaunchPipe env2 lx).pipeCreateCount = 0 ∧
      (LaunchPipe env2 lx).spawnCount = 0 ∧
      (LaunchPipe env2 lx).launcher = lx := by
    intro lx hx
    refine ⟨?_, ?_, ?_, ?_⟩ <;> simp [LaunchPipe, hx]
  have hk := key _ h1
  exact ⟨h2, h1, hk.1, hk.2.1, hk.2.2.1, hk.2.2.2⟩

/-- C7 witness: launching twice with the concrete environment `launchEnvW`
from a fresh configuration. -/
theorem c7_witness :
    (LaunchPipe launchEnvW (New [])).result
      ≠ .error .alreadyLaunched ∧
    ((LaunchPipe launchEnvW (New [])).launcher).launched = true ∧
    (LaunchPipe launchEnvW ((LaunchPipe launchEnvW (New [])).launcher)).result
      = .error .alreadyLaunched ∧
    (LaunchPipe launchEnvW
        ((LaunchPipe launchEnvW (New [])).launcher)).pipeCreateCount = 0 ∧
    (LaunchPipe launchEnvW
        ((LaunchPipe launchEnvW (New [])).launcher)).spawnCount = 0 ∧
    (LaunchPipe launchEnvW
        ((LaunchPipe launchEnvW (New [])).launcher)).launcher
      = (LaunchPipe launchEnvW (New [])).launcher :=
  c7_at_most_once launchEnvW launchEnvW (New []) rfl

/-- C8: the Windows binder marks both handles inheritable and encodes the
two numeric handle values into the single flag value `"<read>,<write>"`;
when the inheritance-marking call fails for either handle the whole call
returns an error wrapping that OS error; and in every case — success or
failure — the binder leaves both handles unclosed, so the caller can still
close them. -/
theorem c8_windows_binder (l : LauncherState) (rp wp : Handle)
    (mrOk mwOk : Bool) (mrE mwE : Nat) :
    (mrOk = true → mwOk = true →
      (preparePipeConfigWindows mrOk mwOk mrE mwE l rp wp).1
        = .ok (l.Set remoteDebuggingIoPipes
              [Nat.repr rp.value ++ "," ++ Nat.repr wp.value],
            [rp.value, wp.value]) ∧
      (preparePipeConfigWindows mrOk mwOk mrE mwE l rp wp).2.1
        = { rp with inheritable := true } ∧
      (preparePipeConfigWindows mrOk mwOk mrE mwE l rp wp).2.2
        = { wp with inheritable := true }) ∧
    (mrOk = false →
      (preparePipeConfigWindows mrOk mwOk mrE mwE l rp wp).1
        = .error (.readHandleInherit mrE) ∧
      (preparePipeConfigWindows mrOk mwOk mrE mwE l rp wp).2.1 = rp ∧
      (preparePipeConfigWindows mrOk mwOk mrE mwE l rp wp).2.2 = wp) ∧
    (mrOk = true → mwOk = false →
      (preparePipeConfigWindows mrOk mwOk mrE mwE l rp wp).1
        = .error (.writeHandleInherit mwE) ∧
      (preparePipeConfigWindows mrOk mwOk mrE mwE l rp wp).2.1
        = { rp with inheritable := true } ∧
      (preparePipeConfigWindows mrOk mwOk mrE mwE l rp wp).2.2 = wp) ∧
    ((preparePipeConfigWindows mrOk mwOk mrE mwE l rp wp).2.1.closed
        = rp.closed ∧
     (preparePipeConfigWindows mrOk mwOk mrE mwE l rp wp).2.2.closed
        = wp.closed) := by
  cases mrOk <;> cases mwOk <;>
    simp [preparePipeConfigWindows, setHandleInheritable]

/-- C9: `NewPipeMode` removes the network-port debugging flag and the
leakless flag, sets the use-pipe flag, and leaves every other flag exactly
as `New` produced it; and a whole `LaunchPipe` call never adds or removes
any flag outside this fixed set plus, on the explicit-handle platform, the
handle-value flag. -/
theorem c9_fixed_flag_set (f0 : Flags) (env : LaunchEnv) (l : LauncherState)
    (k : String) (h1 : k ≠ remoteDebuggingPort) (h2 : k ≠ leaklessFlag)
    (h3 : k ≠ remoteDebuggingPipe) (h4 : k ≠ remoteDebuggingIoPipes) :
    (NewPipeMode f0).Get remoteDebuggingPort = none ∧
    (NewPipeMode f0).Get leaklessFlag = none ∧
    (NewPipeMode f0).Get remoteDebuggingPipe = some [] ∧
    (NewPipeMode f0).Get k = (New f0).Get k ∧
    ((LaunchPipe env l).launcher).Get k = l.Get k := by
  refine ⟨?_, ?_, ?_, ?_, LaunchPipe_Get env l k h4⟩
  · have e1 : (NewPipeMode f0).Get remoteDebuggingPort
        = ((((New f0).Delete remoteDebuggingPort).Delete
            leaklessFlag).Set remoteDebuggingPipe []).Get
            remoteDebuggingPort := rfl
    rw [e1, Get_Set_ne _ _ _ _ (by decide),
      Get_Delete_ne _ _ _ (by decide), Get_Delete_self]
  · have e1 : (NewPipeMode f0).Get leaklessFlag
        = ((((New f0).Delete remoteDebuggingPort).Delete
            leaklessFlag).Set remoteDebuggingPipe []).Get leaklessFlag := rfl
    rw [e1, Get_Set_ne _ _ _ _ (by decide), Get_Delete_self]
  · have e1 : (NewPipeMode f0).Get remoteDebuggingPipe
        = ((((New f0).Delete remoteDebuggingPort).Delete
            leaklessFlag).Set remoteDebuggingPipe []).Get
            remoteDebuggingPipe := rfl
    rw [e1, Get_Set_self]
  · have e1 : (NewPipeMode f0).Get k
        = ((((New f0).Delete remoteDebuggingPort).Delete
            leaklessFlag).Set remoteDebuggingPipe []).Get k := rfl
    rw [e1, Get_Set_ne _ _ _ _ h3, Get_Delete_ne _ _ _ h2,
      Get_Delete_ne _ _ _ h1]

/-- C9 witness: the fixed-flag-set property evaluated for a default flag
table holding a window-size flag, the flag name `"headless"`, and the
concrete environment `launchEnvW`. -/
theorem c9_witness :
    (NewPipeMode [("window-size", ["800,600"])]).Get remoteDebuggingPort
      = none ∧
    (NewPipeMode [("window-size", ["800,600"])]).Get leaklessFlag = none ∧
    (NewPipeMode [("window-size", ["800,600"])]).Get remoteDebuggingPipe
      = some [] ∧
    (NewPipeMode [("window-size", ["800,600"])]).Get "headless"
      = (New [("window-size", ["800,600"])]).Get "headless" ∧
    ((LaunchPipe launchEnvW (New [("window-size", ["800,600"])])).launcher).Get
        "headless"
      = (New [("window-size", ["800,600"])]).Get "headless" :=
  c9_fixed_flag_set [("window-size", ["800,600"])] launchEnvW
    (New [("window-size", ["800,600"])]) "headless"
    (by decide) (by decide) (by decide) (by decide)
